import Mathlib

/-!
Verification of `GeneratedAssetSymbols.h` from the Orbital repository.

The header declares three file-scope constants of type `NSString * const`,
each with a `///` documentation comment naming the asset-catalog resource:

  /// The "GoogleLogo" asset catalog image resource.
  static NSString * const ACImageNameGoogleLogo = @"GoogleLogo";
  /// The "OrbitalLogo" asset catalog image resource.
  static NSString * const ACImageNameOrbitalLogo = @"OrbitalLogo";
  /// The "OrbitalLogoDark" asset catalog image resource.
  static NSString * const ACImageNameOrbitalLogoDark = @"OrbitalLogoDark";

We embed each declaration as a record of its identifier, its string value,
and the resource name quoted in its documentation comment, together with a
minimal runtime model: the artifact exposes no mutating operation, only
reads of the constants.
-/

namespace Orbital

/-- One generated constant declaration from `GeneratedAssetSymbols.h`:
its C identifier, its string-literal value, and the resource name quoted
in the `///` documentation comment above it. -/
structure AssetConstant where
  identifier : String
  value : String
  docName : String
deriving DecidableEq, Repr

/-- `static NSString * const ACImageNameGoogleLogo = @"GoogleLogo";`
(header line 10, doc comment line 9). -/
def ACImageNameGoogleLogo : AssetConstant :=
  { identifier := "ACImageNameGoogleLogo"
    value := "GoogleLogo"
    docName := "GoogleLogo" }

/-- `static NSString * const ACImageNameOrbitalLogo = @"OrbitalLogo";`
(header line 13, doc comment line 12). -/
def ACImageNameOrbitalLogo : AssetConstant :=
  { identifier := "ACImageNameOrbitalLogo"
    value := "OrbitalLogo"
    docName := "OrbitalLogo" }

/-- `static NSString * const ACImageNameOrbitalLogoDark = @"OrbitalLogoDark";`
(header line 16, doc comment line 15). -/
def ACImageNameOrbitalLogoDark : AssetConstant :=
  { identifier := "ACImageNameOrbitalLogoDark"
    value := "OrbitalLogoDark"
    docName := "OrbitalLogoDark" }

/-- The constants exported by `GeneratedAssetSymbols.h`, in declaration
order (header lines 9-16). -/
def generatedAssetSymbols : List AssetConstant :=
  [ACImageNameGoogleLogo, ACImageNameOrbitalLogo, ACImageNameOrbitalLogoDark]

/-- Looking a constant up by its identifier, as consuming code does when it
references one of the exported symbols; `none` models an undeclared
identifier (a compile-time error in the C source). -/
def lookup (id : String) : Option String :=
  (generatedAssetSymbols.find? (fun c => c.identifier == id)).map AssetConstant.value

/-- The runtime state visible through the header: the mapping from
identifier to string value.  The header embeds it at compile time. -/
def AssetState : Type := String → Option String

/-- The state at program start: exactly the compile-time table. -/
def initialState : AssetState := lookup

/-- The operations the artifact exposes at runtime.  The header declares
`const` data and no functions, so the only operation is reading a constant
by identifier; there is no update mechanism. -/
inductive RuntimeOp where
  | read (id : String)
deriving DecidableEq, Repr

/-- Effect of one runtime operation on the state.  A read returns a value
but does not modify the mapping (the constants are `const`). -/
def step (s : AssetState) (_op : RuntimeOp) : AssetState := s

/-- Running a sequence of runtime operations from a state. -/
def run (s : AssetState) (ops : List RuntimeOp) : AssetState :=
  ops.foldl step s

/-- Observing (evaluating) an exported identifier in a given state. -/
def readConst (s : AssetState) (id : String) : Option String := s id

/-- `beginsWith t s` holds when the string `s` starts with `t`. -/
def beginsWith (t s : String) : Bool := s.take t.length == t

/-- Looking a constant up by exact equality with its string value. -/
def findByValue (v : String) : Option AssetConstant :=
  generatedAssetSymbols.find? (fun c => c.value == v)

/-- The constants a query string would match if consuming code matched
resource names by leading-substring instead of exact equality: every
constant whose value the query begins with. -/
def matchByValueStart (q : String) : List AssetConstant :=
  generatedAssetSymbols.filter (fun c => beginsWith c.value q)

/-- `ch` is an ASCII letter (A-Z or a-z). -/
def isAsciiLetter (ch : Char) : Bool :=
  (65 ≤ ch.toNat && ch.toNat ≤ 90) || (97 ≤ ch.toNat && ch.toNat ≤ 122)

/-- `ch` is an ASCII uppercase letter (A-Z). -/
def isAsciiUpper (ch : Char) : Bool :=
  65 ≤ ch.toNat && ch.toNat ≤ 90

/-- Running operations never changes the state, since the artifact has no
mutating operation. -/
theorem run_eq_initial (s : AssetState) (ops : List RuntimeOp) :
    run s ops = s := by
  induction ops with
  | nil => rfl
  | cons op rest ih => exact ih

/-- C1: the exported constants are exactly `ACImageNameGoogleLogo`,
`ACImageNameOrbitalLogo` and `ACImageNameOrbitalLogoDark`, with string
values `"GoogleLogo"`, `"OrbitalLogo"` and `"OrbitalLogoDark"` respectively,
and each value equals the resource name quoted in the declaration's
documentation comment. -/
theorem c1_exported_constants :
    generatedAssetSymbols.map AssetConstant.identifier =
      ["ACImageNameGoogleLogo", "ACImageNameOrbitalLogo",
        "ACImageNameOrbitalLogoDark"] ∧
    ACImageNameGoogleLogo.value = "GoogleLogo" ∧
    ACImageNameOrbitalLogo.value = "OrbitalLogo" ∧
    ACImageNameOrbitalLogoDark.value = "OrbitalLogoDark" ∧
    generatedAssetSymbols.all (fun c => c.docName == c.value) = true := by
  refine ⟨rfl, rfl, rfl, rfl, by decide⟩

/-- C2: distinct exported constants carry pairwise distinct string values;
the identifier-to-value mapping is injective, with no aliasing. -/
theorem c2_values_pairwise_distinct :
    generatedAssetSymbols.Pairwise (fun a b => a.value ≠ b.value) := by
  decide

/-- C3: every declared constant's string value is non-empty. -/
theorem c3_values_nonempty :
    generatedAssetSymbols.all (fun c => !(c.value == "")) = true := by
  decide

/-- C4: the identifier-to-value mapping is fixed at build time and no
runtime operation changes it: after any sequence of runtime steps, every
exported constant still reads as the value it had initially. -/
theorem c4_constants_immutable (ops : List RuntimeOp) (c : AssetConstant)
    (h : c ∈ generatedAssetSymbols) :
    readConst (run initialState ops) c.identifier = some c.value ∧
    readConst initialState c.identifier = some c.value := by
  rw [run_eq_initial]
  have hv : readConst initialState c.identifier = some c.value := by
    simp only [generatedAssetSymbols, List.mem_cons,
      List.not_mem_nil, or_false] at h
    rcases h with rfl | rfl | rfl <;> decide
  exact ⟨hv, hv⟩

/-- C4 witness: reading `ACImageNameGoogleLogo` after a concrete run still
yields `"GoogleLogo"`. -/
theorem c4_constants_immutable_witness :
    readConst (run initialState [RuntimeOp.read "ACImageNameGoogleLogo"])
        ACImageNameGoogleLogo.identifier = some ACImageNameGoogleLogo.value ∧
    readConst initialState ACImageNameGoogleLogo.identifier =
        some ACImageNameGoogleLogo.value :=
  c4_constants_immutable [RuntimeOp.read "ACImageNameGoogleLogo"]
    ACImageNameGoogleLogo (by decide)

/-- C5: looking up any declared identifier never fails: the result is
`some` of the constant's string value, never the error case. -/
theorem c5_lookup_total (c : AssetConstant)
    (h : c ∈ generatedAssetSymbols) :
    lookup c.identifier = some c.value := by
  simp only [generatedAssetSymbols, List.mem_cons,
    List.not_mem_nil, or_false] at h
  rcases h with rfl | rfl | rfl <;> decide

/-- C5 witness: the lookup of `ACImageNameOrbitalLogo` succeeds with
`"OrbitalLogo"`. -/
theorem c5_lookup_total_witness :
    lookup ACImageNameOrbitalLogo.identifier =
      some ACImageNameOrbitalLogo.value :=
  c5_lookup_total ACImageNameOrbitalLogo (by decide)

/-- C6: evaluation of an exported identifier is deterministic and free of
shared mutable state: any two evaluations, after any two sequences of
runtime operations, yield equal results. -/
theorem c6_reads_deterministic (ops₁ ops₂ : List RuntimeOp) (id : String) :
    readConst (run initialState ops₁) id =
      readConst (run initialState ops₂) id := by
  rw [run_eq_initial, run_eq_initial]

/-- C7: every identifier is `"ACImageName"` followed by the constant's
value, dropping that leading part of the identifier recovers the value, and
the value uniquely determines the identifier. -/
theorem c7_identifier_roundtrip :
    generatedAssetSymbols.all
      (fun c => c.identifier == "ACImageName" ++ c.value &&
        c.identifier.drop ("ACImageName".length) == c.value) = true ∧
    ∀ a ∈ generatedAssetSymbols, ∀ b ∈ generatedAssetSymbols,
      a.value = b.value → a.identifier = b.identifier := by
  refine ⟨by decide, by decide⟩

/-- C8: `"OrbitalLogo"` is a strict leading substring of
`"OrbitalLogoDark"`; lookup by exact value equality identifies every
constant, but matching the query `"OrbitalLogoDark"` by leading substring
hits two distinct constants. -/
theorem c8_overlapping_values :
    ACImageNameOrbitalLogo.value ≠ ACImageNameOrbitalLogoDark.value ∧
    beginsWith ACImageNameOrbitalLogo.value
      ACImageNameOrbitalLogoDark.value = true ∧
    (∀ c ∈ generatedAssetSymbols, findByValue c.value = some c) ∧
    ACImageNameOrbitalLogo ∈
      matchByValueStart ACImageNameOrbitalLogoDark.value ∧
    ACImageNameOrbitalLogoDark ∈
      matchByValueStart ACImageNameOrbitalLogoDark.value := by
  refine ⟨by decide, by decide, by decide, by decide, by decide⟩

/-- C9: every constant's value consists solely of ASCII letters and its
first character is an uppercase letter. -/
theorem c9_values_ascii_letters :
    generatedAssetSymbols.all
      (fun c => c.value.toList.all isAsciiLetter &&
        (match c.value.toList with
          | [] => false
          | ch :: _ => isAsciiUpper ch)) = true := by
  decide

end Orbital
